import Mathlib

/-!
Verification of the go-llama command-line utility (src/main.go and the
earlier variant src/unnamed/part_001).

The program builds a fixed chat-completion request, serializes it to JSON,
performs one HTTP POST to a fixed endpoint with a bearer-token header,
checks the status code, decodes the JSON response and returns the content
of the first choice of the message.

The embedding is shallow: the Go structs become Lean structures, the pure
request construction and JSON marshalling become Lean functions, and the
external effects (the environment variable, the single HTTP exchange, the
body read and the JSON decode outcome) are an explicit oracle record
`world` passed to `getGeneratedResponse`.  The function additionally
returns the list of external events it performed, in order, so that
claims about which effects are (not) reached are statable.
-/

namespace GoLlama

/-- JSON values, as produced by Go encoding/json for the types in this
program.  An object is an ordered list of key/value pairs: Go marshals
struct fields in declaration order, which the embedding preserves. -/
inductive Json where
  | str (s : String)
  | bool (b : Bool)
  | num (n : Int)
  | arr (elems : List Json)
  | obj (fields : List (String × Json))
deriving Repr

/-- Message inside the request body (src/main.go lines 24-27). -/
structure reqMessage where
  Role : String
  Content : String
deriving Repr, DecidableEq, Inhabited

/-- Innermost schema item of the function declaration (src/main.go lines 45-48).
The Go field Type is written in lowercase because Type is reserved in Lean;
the lowercase name coincides with its JSON tag. -/
structure words where
  type : String
  Description : String
deriving Repr, DecidableEq, Inhabited

/-- Property block of the function declaration (src/main.go lines 41-43). -/
structure properties where
  Words : words
deriving Repr, DecidableEq, Inhabited

/-- Parameter block of the function declaration (src/main.go lines 36-39). -/
structure parameters where
  type : String
  Properties : properties
deriving Repr, DecidableEq, Inhabited

/-- Function-calling declaration inside the request (src/main.go lines 29-34). -/
structure function where
  Name : String
  Description : String
  Parameters : parameters
  Required : List String
deriving Repr, DecidableEq, Inhabited

/-- Request body to llama API (src/main.go lines 16-22). -/
structure chatRequest where
  Model : String
  Messages : List reqMessage
  Functions : List function
  Stream : Bool
  FunctionCall : String
deriving Repr, DecidableEq, Inhabited

/-- Arguments of a returned function call (src/main.go lines 72-74). -/
structure arguments where
  Words : List String
deriving Repr, DecidableEq, Inhabited

/-- Function call inside a response message (src/main.go lines 67-70). -/
structure functionCall where
  Name : String
  Arguments : arguments
deriving Repr, DecidableEq, Inhabited

/-- Message inside a response choice (src/main.go lines 61-65). -/
structure resMessage where
  Role : String
  Content : String
  FunctionCall : functionCall
deriving Repr, DecidableEq, Inhabited

/-- One choice of the response body (src/main.go lines 55-59). -/
structure choice where
  Index : Int
  Message : resMessage
  FinishReason : String
deriving Repr, DecidableEq, Inhabited

/-- Response body from llama API (src/main.go lines 51-53). -/
structure chatResponse where
  Choices : List choice
deriving Repr, DecidableEq, Inhabited

/-! ## JSON marshalling

json.Marshal on these struct types: fields in declaration order, keys
taken from the json tags.  On the types of this program Marshal cannot
fail (every field is a string, bool, struct or slice of such), so the
embedding is a total function into `Json`. -/

/-- Marshalling of reqMessage: tags role, content. -/
def reqMessage.toJson (m : reqMessage) : Json :=
  Json.obj [("role", Json.str m.Role), ("content", Json.str m.Content)]

/-- Marshalling of words: tags type, description. -/
def words.toJson (w : words) : Json :=
  Json.obj [("type", Json.str w.type), ("description", Json.str w.Description)]

/-- Marshalling of properties: tag words. -/
def properties.toJson (p : properties) : Json :=
  Json.obj [("words", words.toJson p.Words)]

/-- Marshalling of parameters: tags type, properties. -/
def parameters.toJson (p : parameters) : Json :=
  Json.obj [("type", Json.str p.type), ("properties", properties.toJson p.Properties)]

/-- Marshalling of function: tags name, description, parameters, required. -/
def function.toJson (f : function) : Json :=
  Json.obj
    [("name", Json.str f.Name),
     ("description", Json.str f.Description),
     ("parameters", parameters.toJson f.Parameters),
     ("required", Json.arr (f.Required.map Json.str))]

/-- Marshalling of chatRequest: tags model, messages, functions, stream,
function_call, in declaration order. -/
def chatRequest.toJson (r : chatRequest) : Json :=
  Json.obj
    [("model", Json.str r.Model),
     ("messages", Json.arr (r.Messages.map reqMessage.toJson)),
     ("functions", Json.arr (r.Functions.map function.toJson)),
     ("stream", Json.bool r.Stream),
     ("function_call", Json.str r.FunctionCall)]

/-! ## The program -/

/-- Endpoint (src/main.go line 77). -/
def API_URL : String := "https://api.llama-api.com/chat/completions"

/-- Set a prompt and other values to create chat request
(src/main.go lines 151-176). -/
def createChatRequest (prompt : String) : chatRequest :=
  { Model := "llama3-70b",
    Messages := [{ Role := "user", Content := prompt }],
    Functions :=
      [{ Name := "Get_English_Exmple_Sentence",
         Description := "Get the English example sentence generated with given words.",
         Parameters :=
           { type := "object",
             Properties :=
               { Words :=
                   { type := "string",
                     Description := "English vocabulary list, e.g. nonchalant, reckon, appalled" } } },
         Required := ["words"] }],
    Stream := false,
    FunctionCall := "none" }

/-! ## The effect oracle

`getGeneratedResponse` interacts with the outside world through
os.Getenv, http.Client.Do, io.ReadAll and json.Unmarshal.  The oracle
fixes the outcome of each interaction for one execution:

* `apiKey` is the value of os.Getenv applied to LLAMA_API_KEY (the empty
  string both for an unset and for an empty variable, as in Go);
* `doResult` is what client.Do would return: a transport error, or an
  HTTP response carrying a status code and a body;
* inside a response, `readResult` is what io.ReadAll of the body would
  return: a read error, or the bytes; the bytes themselves are kept
  abstract and represented by `unmarshalResult`, the outcome of
  json.Unmarshal of exactly those bytes into a chatResponse value. -/

/-- Go error values, represented by their message. -/
abbrev GoError := String

/-- A successfully read response body, represented by the outcome of
unmarshalling it into a chatResponse. -/
structure bodyData where
  unmarshalResult : Except GoError chatResponse

/-- An HTTP response as far as this program inspects it: the status code
and the outcome of reading its body. -/
structure httpResponse where
  StatusCode : Nat
  readResult : Except GoError bodyData

/-- The external world of one execution. -/
structure world where
  apiKey : String
  doResult : Except GoError httpResponse

/-- External events, in the order the program performs them. -/
inductive Event where
  | marshal (body : Json)
  | newRequest (method url : String)
  | doRequest (method url : String) (headers : List (String × String)) (body : Json)
  | readAll
  | unmarshal
  | decode
deriving Repr

/-- Does the event perform an outbound HTTP request (client.Do)? -/
def Event.isDo : Event → Bool
  | .doRequest _ _ _ _ => true
  | _ => false

/-- Is the event an io.ReadAll of the response body? -/
def Event.isReadAll : Event → Bool
  | .readAll => true
  | _ => false

/-- Is the event a json.Unmarshal of the response body? -/
def Event.isUnmarshal : Event → Bool
  | .unmarshal => true
  | _ => false

/-- The pair a Go function returning (string, error) produces, together
with the trace of external events of the call. -/
structure callResult where
  value : String
  err : Option GoError
  events : List Event
deriving Repr

/-- Get generated response from Llama API (src/main.go lines 80-148).
json.Marshal (line 85) and http.NewRequestWithContext (line 93) are
called on values on which they cannot fail in Go — every field of
chatRequest is marshallable and the method and URL are fixed valid
constants — so their error branches (lines 86-89 and 94-97) are dead and
the embedding records the events and moves on. -/
def getGeneratedResponse (w : world) (prompt : String) : callResult :=
  let chatReq := createChatRequest prompt
  let jsonData := chatRequest.toJson chatReq
  let evs0 := [Event.marshal jsonData, Event.newRequest ("POST") API_URL]
  if w.apiKey = "" then
    { value := "", err := some ("LLAMA_API_KEY environment variable is not set"),
      events := evs0 }
  else
    let headers := [("Content-Type", "application/json"),
                    ("Authorization", "Bearer " ++ w.apiKey)]
    let evs1 := evs0 ++ [Event.doRequest ("POST") API_URL headers jsonData]
    match w.doResult with
    | Except.error e => { value := "", err := some e, events := evs1 }
    | Except.ok res =>
      if res.StatusCode ≠ 200 then
        { value := "", err := some ("Unexpected status code"), events := evs1 }
      else
        let evs2 := evs1 ++ [Event.readAll]
        match res.readResult with
        | Except.error e => { value := "", err := some e, events := evs2 }
        | Except.ok body =>
          let evs3 := evs2 ++ [Event.unmarshal]
          match body.unmarshalResult with
          | Except.error e => { value := "", err := some e, events := evs3 }
          | Except.ok chatRes =>
            if chatRes.Choices.length = 0 then
              { value := "", err := some ("No choices returned from llama"),
                events := evs3 }
            else
              { value := chatRes.Choices.headI.Message.Content, err := none,
                events := evs3 }

/-- The prompt main builds (src/main.go lines 179-181): Sprintf of the
three fixed words into the format string. -/
def mainPrompt : String :=
  "Please create an English example sentence using following words: nonchalant, reckon, appalled"

/-- Observable outcome of main: either the generated response is printed,
or log.Fatalf aborts the process with a message. -/
inductive mainOutcome where
  | printed (response : String)
  | fatal (msg : String)
deriving Repr

/-- Did main abort the process? -/
def mainOutcome.isFatal : mainOutcome → Bool
  | .fatal _ => true
  | _ => false

/-- main (src/main.go lines 178-201): build the fixed prompt, call
getGeneratedResponse, abort via log.Fatalf on any error, otherwise print
the response. -/
def main (w : world) : mainOutcome :=
  let r := getGeneratedResponse w mainPrompt
  match r.err with
  | some e => mainOutcome.fatal ("Failed to get generated response from Llama API: " ++ e)
  | none => mainOutcome.printed r.value

/-- All steps of getGeneratedResponse succeed: the API key is set, the
request goes through, the status is 200, the body is read, it
unmarshals, and the choice list is non-empty. -/
def stepsAllSucceed (w : world) : Bool :=
  !(w.apiKey == "") &&
  match w.doResult with
  | Except.error _ => false
  | Except.ok res =>
    (res.StatusCode == 200) &&
    match res.readResult with
    | Except.error _ => false
    | Except.ok body =>
      match body.unmarshalResult with
      | Except.error _ => false
      | Except.ok chatRes => !(chatRes.Choices.length == 0)

/-! ## The earlier variant (src/unnamed/part_001)

Same package at another revision: identical type declarations and an
identical createChatRequest, but getGeneratedResponse returns only a
string, aborts through log.Fatalf on every failure, and decodes the
response body in one step with json.NewDecoder(res.Body).Decode instead
of io.ReadAll followed by json.Unmarshal.  A Decode of the body stream
fails exactly when reading the bytes fails or the bytes do not unmarshal,
so the same oracle drives it. -/

namespace V2

/-- Set a prompt and other values to create chat request
(src/unnamed/part_001 lines 131-156). -/
def createChatRequest (prompt : String) : chatRequest :=
  { Model := "llama3-70b",
    Messages := [{ Role := "user", Content := prompt }],
    Functions :=
      [{ Name := "Get_English_Exmple_Sentence",
         Description := "Get the English example sentence generated with given words.",
         Parameters :=
           { type := "object",
             Properties :=
               { Words :=
                   { type := "string",
                     Description := "English vocabulary list, e.g. nonchalant, reckon, appalled" } } },
         Required := ["words"] }],
    Stream := false,
    FunctionCall := "none" }

/-- Observable outcome of the variant getGeneratedResponse: the returned
string, or a log.Fatalf abort with a message. -/
inductive outcome where
  | ok (value : String)
  | fatal (msg : String)
deriving Repr

/-- Get generated response from Llama API (src/unnamed/part_001 lines
78-128), with the trace of external events of the call. -/
def getGeneratedResponse (w : world) (prompt : String) : outcome × List Event :=
  let chatReq := V2.createChatRequest prompt
  let jsonData := chatRequest.toJson chatReq
  let evs0 := [Event.marshal jsonData, Event.newRequest ("POST") API_URL]
  if w.apiKey = "" then
    (outcome.fatal ("LLAMA_API_KEY environment variable is not set"), evs0)
  else
    let headers := [("Content-Type", "application/json"),
                    ("Authorization", "Bearer " ++ w.apiKey)]
    let evs1 := evs0 ++ [Event.doRequest ("POST") API_URL headers jsonData]
    match w.doResult with
    | Except.error e => (outcome.fatal ("Failed to get http response: " ++ e), evs1)
    | Except.ok res =>
      if res.StatusCode ≠ 200 then
        (outcome.fatal ("Unexpected status code"), evs1)
      else
        let evs2 := evs1 ++ [Event.decode]
        match res.readResult with
        | Except.error e => (outcome.fatal ("Failed to decode: " ++ e), evs2)
        | Except.ok body =>
          match body.unmarshalResult with
          | Except.error e => (outcome.fatal ("Failed to decode: " ++ e), evs2)
          | Except.ok chatRes =>
            if chatRes.Choices.length = 0 then
              (outcome.fatal ("No choices returned from llama"), evs2)
            else
              (outcome.ok chatRes.Choices.headI.Message.Content, evs2)

end V2

/-! ## The claims -/

/-- C1: For every HTTP 200 response whose JSON body decodes into a
chatResponse with at least one choice, getGeneratedResponse returns
exactly the content string of the first choice of the message, unchanged,
with a nil error; choices beyond index 0 do not affect the result. -/
theorem getGeneratedResponse_ok (w : world) (prompt : String)
    (res : httpResponse) (b : bodyData) (c : choice) (rest : List choice)
    (hkey : w.apiKey ≠ "")
    (hdo : w.doResult = Except.ok res)
    (hst : res.StatusCode = 200)
    (hread : res.readResult = Except.ok b)
    (hun : b.unmarshalResult = Except.ok (chatResponse.mk (c :: rest))) :
    (getGeneratedResponse w prompt).value = c.Message.Content ∧
    (getGeneratedResponse w prompt).err = none := by
  simp [getGeneratedResponse, hkey, hdo, hst, hread, hun]

/-- A concrete first choice for sample executions. -/
def sampleChoice : choice :=
  { Index := 0,
    Message := { Role := "assistant", Content := "hello",
                 FunctionCall := { Name := "", Arguments := { Words := [] } } },
    FinishReason := "stop" }

/-- A concrete second choice for sample executions, with a different
content, so that it would be visible if it leaked into the result. -/
def sampleChoice2 : choice :=
  { Index := 1,
    Message := { Role := "assistant", Content := "other",
                 FunctionCall := { Name := "", Arguments := { Words := [] } } },
    FinishReason := "stop" }

/-- A concrete world for a fully successful execution: key set, 200
response, readable body, two choices. -/
def sampleGoodWorld : world :=
  { apiKey := "k",
    doResult := Except.ok
      { StatusCode := 200,
        readResult := Except.ok
          { unmarshalResult := Except.ok { Choices := [sampleChoice, sampleChoice2] } } } }

/-- Witness for C1: a concrete execution with a 200 response carrying two
choices returns the content of the first one and a nil error. -/
theorem getGeneratedResponse_ok_witness :
    (getGeneratedResponse sampleGoodWorld ("p")).value = "hello" ∧
    (getGeneratedResponse sampleGoodWorld ("p")).err = none :=
  getGeneratedResponse_ok sampleGoodWorld ("p") _ _ sampleChoice [sampleChoice2]
    (by decide) rfl rfl rfl rfl

/-- C2: For the fixed prompt built in main, the request body produced by
createChatRequest and serialized with json.Marshal matches the expected
JSON shape exactly: an object with fields model, messages, functions,
stream and function_call, where messages is a one-element list holding
the prompt as a user message and functions is the one fixed function
declaration. -/
theorem createChatRequest_mainPrompt_json :
    chatRequest.toJson (createChatRequest mainPrompt) =
      Json.obj
        [("model", Json.str ("llama3-70b")),
         ("messages", Json.arr
           [Json.obj
             [("role", Json.str ("user")),
              ("content", Json.str
                ("Please create an English example sentence using following words: nonchalant, reckon, appalled"))]]),
         ("functions", Json.arr
           [Json.obj
             [("name", Json.str ("Get_English_Exmple_Sentence")),
              ("description", Json.str
                ("Get the English example sentence generated with given words.")),
              ("parameters", Json.obj
                [("type", Json.str ("object")),
                 ("properties", Json.obj
                   [("words", Json.obj
                     [("type", Json.str ("string")),
                      ("description", Json.str
                        ("English vocabulary list, e.g. nonchalant, reckon, appalled"))])])]),
              ("required", Json.arr [Json.str ("words")])]]),
         ("stream", Json.bool false),
         ("function_call", Json.str ("none"))] := rfl

/-- C3: If the LLAMA_API_KEY environment variable is unset or empty,
getGeneratedResponse fails with a non-nil error before any network call:
its event trace contains no client.Do request. -/
theorem getGeneratedResponse_missingKey (w : world) (prompt : String)
    (hkey : w.apiKey = "") :
    (getGeneratedResponse w prompt).err.isSome = true ∧
    (getGeneratedResponse w prompt).events.any Event.isDo = false := by
  simp [getGeneratedResponse, hkey, Event.isDo]

/-- Witness for C3: with an empty key the call errors and performs no
request, even in a world where the network would have answered. -/
theorem getGeneratedResponse_missingKey_witness :
    (getGeneratedResponse { apiKey := "", doResult := sampleGoodWorld.doResult }
      ("p")).err.isSome = true ∧
    (getGeneratedResponse { apiKey := "", doResult := sampleGoodWorld.doResult }
      ("p")).events.any Event.isDo = false :=
  getGeneratedResponse_missingKey { apiKey := "", doResult := sampleGoodWorld.doResult }
    ("p") rfl

/-- C4: For every HTTP response whose status code is not 200,
getGeneratedResponse returns a non-nil error without reading or parsing
the response body: its event trace contains neither an io.ReadAll nor a
json.Unmarshal event. -/
theorem getGeneratedResponse_non200 (w : world) (prompt : String)
    (res : httpResponse)
    (hkey : w.apiKey ≠ "")
    (hdo : w.doResult = Except.ok res)
    (hst : res.StatusCode ≠ 200) :
    (getGeneratedResponse w prompt).err.isSome = true ∧
    (getGeneratedResponse w prompt).events.any Event.isReadAll = false ∧
    (getGeneratedResponse w prompt).events.any Event.isUnmarshal = false := by
  simp [getGeneratedResponse, hkey, hdo, hst, Event.isDo, Event.isReadAll, Event.isUnmarshal]

/-- Witness for C4: a concrete 404 response errors without the body ever
being read or unmarshalled. -/
theorem getGeneratedResponse_non200_witness :
    (getGeneratedResponse
      { apiKey := "k",
        doResult := Except.ok { StatusCode := 404, readResult := Except.error ("unread") } }
      ("p")).err.isSome = true ∧
    (getGeneratedResponse
      { apiKey := "k",
        doResult := Except.ok { StatusCode := 404, readResult := Except.error ("unread") } }
      ("p")).events.any Event.isReadAll = false ∧
    (getGeneratedResponse
      { apiKey := "k",
        doResult := Except.ok { StatusCode := 404, readResult := Except.error ("unread") } }
      ("p")).events.any Event.isUnmarshal = false :=
  getGeneratedResponse_non200
    { apiKey := "k",
      doResult := Except.ok { StatusCode := 404, readResult := Except.error ("unread") } }
    ("p") _ (by decide) rfl (by decide)

/-- C5: For every HTTP 200 response whose JSON body decodes into a
chatResponse whose Choices list is empty, getGeneratedResponse returns a
non-nil error. -/
theorem getGeneratedResponse_emptyChoices (w : world) (prompt : String)
    (res : httpResponse) (b : bodyData)
    (hkey : w.apiKey ≠ "")
    (hdo : w.doResult = Except.ok res)
    (hst : res.StatusCode = 200)
    (hread : res.readResult = Except.ok b)
    (hun : b.unmarshalResult = Except.ok (chatResponse.mk [])) :
    (getGeneratedResponse w prompt).err.isSome = true := by
  simp [getGeneratedResponse, hkey, hdo, hst, hread, hun]

/-- Witness for C5: a concrete 200 response with zero choices errors. -/
theorem getGeneratedResponse_emptyChoices_witness :
    (getGeneratedResponse
      { apiKey := "k",
        doResult := Except.ok
          { StatusCode := 200,
            readResult := Except.ok
              { unmarshalResult := Except.ok { Choices := [] } } } }
      ("p")).err.isSome = true :=
  getGeneratedResponse_emptyChoices
    { apiKey := "k",
      doResult := Except.ok
        { StatusCode := 200,
          readResult := Except.ok
            { unmarshalResult := Except.ok { Choices := [] } } } }
    ("p") _ _ (by decide) rfl rfl rfl rfl

/-- C6: Every failure mode is treated identically, with no retry and no
distinction between kinds: getGeneratedResponse returns a non-nil error
exactly when one of its steps fails, and main aborts through log.Fatalf
exactly in that case.  (On the types and constants of this program,
json.Marshal and http.NewRequestWithContext cannot fail, so those two
listed failure modes never occur.) -/
theorem getGeneratedResponse_failure_modes (w : world) :
    (∀ prompt : String,
      (getGeneratedResponse w prompt).err.isSome = !stepsAllSucceed w) ∧
    (GoLlama.main w).isFatal = !stepsAllSucceed w := by
  have h : ∀ prompt : String,
      (getGeneratedResponse w prompt).err.isSome = !stepsAllSucceed w := by
    intro prompt
    rcases w with ⟨key, doRes⟩
    by_cases hk : key = ""
    · simp [getGeneratedResponse, stepsAllSucceed, hk]
    · rcases doRes with e | ⟨code, readRes⟩
      · simp [getGeneratedResponse, stepsAllSucceed, hk]
      · by_cases hst : code = 200
        · subst hst
          rcases readRes with e | ⟨unRes⟩
          · simp [getGeneratedResponse, stepsAllSucceed, hk]
          · rcases unRes with e | ⟨choices⟩
            · simp [getGeneratedResponse, stepsAllSucceed, hk]
            · rcases choices with _ | ⟨c, rest⟩
              · simp [getGeneratedResponse, stepsAllSucceed, hk]
              · simp [getGeneratedResponse, stepsAllSucceed, hk]
        · simp [getGeneratedResponse, stepsAllSucceed, hk, hst]

  refine ⟨h, ?_⟩
  have h2 := h mainPrompt
  cases herr : (getGeneratedResponse w mainPrompt).err with
  | none =>
    rw [herr] at h2
    have hm : GoLlama.main w = mainOutcome.printed (getGeneratedResponse w mainPrompt).value := by
      simp [GoLlama.main, herr]
    rw [hm]
    simpa [mainOutcome.isFatal] using h2
  | some e =>
    rw [herr] at h2
    have hm : GoLlama.main w =
        mainOutcome.fatal ("Failed to get generated response from Llama API: " ++ e) := by
      simp [GoLlama.main, herr]
    rw [hm]
    simpa [mainOutcome.isFatal] using h2

/-- C7: In every execution, getGeneratedResponse performs at most one
outbound HTTP request, and that request is a POST to the fixed endpoint
API_URL carrying the marshalled JSON body and an Authorization header of
Bearer followed by the API key; no retry ever issues a second request. -/
theorem getGeneratedResponse_one_request (w : world) (prompt : String) :
    (getGeneratedResponse w prompt).events.filter Event.isDo = [] ∨
    (getGeneratedResponse w prompt).events.filter Event.isDo =
      [Event.doRequest ("POST") API_URL
        [("Content-Type", "application/json"), ("Authorization", "Bearer " ++ w.apiKey)]
        (chatRequest.toJson (createChatRequest prompt))] := by
  rcases w with ⟨key, doRes⟩
  by_cases hk : key = ""
  · left
    simp [getGeneratedResponse, hk, Event.isDo]
  · right
    rcases doRes with e | ⟨code, readRes⟩
    · simp [getGeneratedResponse, hk, Event.isDo]
    · by_cases hst : code = 200
      · subst hst
        rcases readRes with e | ⟨unRes⟩
        · simp [getGeneratedResponse, hk, Event.isDo]
        · rcases unRes with e | ⟨choices⟩
          · simp [getGeneratedResponse, hk, Event.isDo]
          · rcases choices with _ | ⟨c, rest⟩
            · simp [getGeneratedResponse, hk, Event.isDo]
            · simp [getGeneratedResponse, hk, Event.isDo]
      · simp [getGeneratedResponse, hk, hst, Event.isDo]

/-- C8: For every prompt string, createChatRequest embeds the prompt
verbatim as the Content of the single message with Role user, and sets
the other fields to constants independent of the prompt: Model is
llama3-70b, Stream is false, FunctionCall is none, and Functions is the
same list whatever the prompt. -/
theorem createChatRequest_fields (prompt : String) :
    (createChatRequest prompt).Model = "llama3-70b" ∧
    (createChatRequest prompt).Messages = [{ Role := "user", Content := prompt }] ∧
    (createChatRequest prompt).Stream = false ∧
    (createChatRequest prompt).FunctionCall = "none" ∧
    (createChatRequest prompt).Functions = (createChatRequest "").Functions :=
  ⟨rfl, rfl, rfl, rfl, rfl⟩

/-- C9: Whenever getGeneratedResponse returns a non-nil error, its string
result is exactly the empty string; a non-empty generated text is never
returned together with an error. -/
theorem getGeneratedResponse_err_value (w : world) (prompt : String)
    (h : (getGeneratedResponse w prompt).err ≠ none) :
    (getGeneratedResponse w prompt).value = "" := by
  rcases w with ⟨key, doRes⟩
  by_cases hk : key = ""
  · simp [getGeneratedResponse, hk]
  · rcases doRes with e | ⟨code, readRes⟩
    · simp [getGeneratedResponse, hk]
    · by_cases hst : code = 200
      · subst hst
        rcases readRes with e | ⟨unRes⟩
        · simp [getGeneratedResponse, hk]
        · rcases unRes with e | ⟨choices⟩
          · simp [getGeneratedResponse, hk]
          · rcases choices with _ | ⟨c, rest⟩
            · simp [getGeneratedResponse, hk]
            · exact absurd (by simp [getGeneratedResponse, hk]) h
      · simp [getGeneratedResponse, hk, hst]

/-- Witness for C9: in a concrete erroring execution the returned string
is empty. -/
theorem getGeneratedResponse_err_value_witness :
    (getGeneratedResponse { apiKey := "", doResult := Except.error ("down") }
      ("p")).value = "" :=
  getGeneratedResponse_err_value { apiKey := "", doResult := Except.error ("down") }
    ("p") (by decide)

/-- C10: The two source variants compute the same success result: for the
same prompt, the same non-empty API key and the same HTTP 200 response
decoding to at least one choice, the variant of src/unnamed/part_001
builds the same request body as src/main.go and returns the same string,
the content of the first choice of the message. -/
theorem variants_agree (w : world) (prompt : String)
    (res : httpResponse) (b : bodyData) (c : choice) (rest : List choice)
    (hkey : w.apiKey ≠ "")
    (hdo : w.doResult = Except.ok res)
    (hst : res.StatusCode = 200)
    (hread : res.readResult = Except.ok b)
    (hun : b.unmarshalResult = Except.ok (chatResponse.mk (c :: rest))) :
    V2.createChatRequest prompt = createChatRequest prompt ∧
    chatRequest.toJson (V2.createChatRequest prompt) =
      chatRequest.toJson (createChatRequest prompt) ∧
    (V2.getGeneratedResponse w prompt).1 =
      V2.outcome.ok ((getGeneratedResponse w prompt).value) ∧
    (getGeneratedResponse w prompt).value = c.Message.Content := by
  refine ⟨rfl, rfl, ?_, ?_⟩
  · simp [V2.getGeneratedResponse, getGeneratedResponse, hkey, hdo, hst, hread, hun]
  · simp [getGeneratedResponse, hkey, hdo, hst, hread, hun]

/-- Witness for C10: on a concrete successful execution both variants
return the content of the first choice. -/
theorem variants_agree_witness :
    V2.createChatRequest ("p") = createChatRequest ("p") ∧
    chatRequest.toJson (V2.createChatRequest ("p")) =
      chatRequest.toJson (createChatRequest ("p")) ∧
    (V2.getGeneratedResponse sampleGoodWorld ("p")).1 =
      V2.outcome.ok ((getGeneratedResponse sampleGoodWorld ("p")).value) ∧
    (getGeneratedResponse sampleGoodWorld ("p")).value = "hello" :=
  variants_agree sampleGoodWorld ("p") _ _ sampleChoice [sampleChoice2]
    (by decide) rfl rfl rfl rfl

end GoLlama

